import Mathlib

/-
Verification of the session/authentication coordination layer of the pad.ws
backend: a shallow embedding of `src/backend/dependencies.py`,
`src/backend/routers/auth_router.py` and the startup logic of
`src/backend/main.py`, together with theorems settling the specified
properties of the three access tiers, pad-level authorization, the auth
HTTP endpoints and the startup migration step.

External collaborators (the Redis-backed `Session` domain object, the JWT
library, the pad database) are modelled as oracles: function-valued fields
of the per-request state, or small inductive types whose constructors
enumerate the outcomes the code distinguishes.
-/

set_option autoImplicit false

namespace PadWs

/-- Decoded JWT claims payload of an access token, as read by `UserSession`:
`sub` and `exp` are always issued by the identity provider (the subject id is
modelled as a `Nat` standing for the UUID string); the remaining claims are
optional and `UserSession` substitutes defaults when they are absent, exactly
as `dict.get` with a default does in the source. -/
structure Claims where
  sub : Nat
  exp : Nat
  email : Option String
  email_verified : Option Bool
  preferred_username : Option String
  name : Option String
  realm_access_roles : Option (List String)
  deriving DecidableEq, Repr

/-- An access token as seen through the JWT library: `jwt.decode` with the
JWKS signing key and the client-id audience either succeeds and yields the
claims payload, or raises `jwt.InvalidTokenError` with a message. A token is
modelled by its observable outcome under that verification. -/
inductive AccessToken where
  | valid (payload : Claims)
  | invalid (reason : String)
  deriving DecidableEq, Repr

/-- Models `jwt.decode(access_token, signing_key.key, algorithms=["RS256"],
audience=oidc_config['client_id'])` from `UserSession.__init__`: the verified
payload on success, the `InvalidTokenError` message on failure. -/
def verify : AccessToken → Except String Claims
  | .valid payload => .ok payload
  | .invalid reason => .error reason

/-- A session record stored in Redis under the `session_id` key: the raw
token-endpoint response (`access_token`, `refresh_token`, `id_token`,
`expires_in`, ...) that `Session.set` persisted on callback or refresh. -/
structure SessionRecord where
  access_token : AccessToken
  refresh_token : String
  id_token : String
  expires_in : Nat
  deriving DecidableEq, Repr

/-- `UserSession` from `dependencies.py` after a successful constructor run:
it keeps the access token and `self.token_data`, which the constructor
OVERWRITES with the verified decode result (the `token_data` dict passed in
is never read). -/
structure UserSession where
  access_token : AccessToken
  token_data : Claims
  deriving DecidableEq, Repr

/-- `UserSession.__init__`: decodes `access_token` with verification; on
`InvalidTokenError` raises `ValueError("Invalid authentication token: ...")`
(modelled as `Except.error`). The `_token_data` parameter is the raw session
record passed at the call site; the constructor discards it. -/
def mkUserSession (access_token : AccessToken) (_token_data : SessionRecord) :
    Except String UserSession :=
  match verify access_token with
  | .error e => .error ("Invalid authentication token: " ++ e)
  | .ok payload => .ok { access_token := access_token, token_data := payload }

/-- `UserSession.id`: the `sub` claim of the verified token. -/
def UserSession.id (u : UserSession) : Nat := u.token_data.sub

/-- `UserSession.email`: `token_data.get("email", "")`. -/
def UserSession.email (u : UserSession) : String := u.token_data.email.getD ""

/-- `UserSession.email_verified`: `token_data.get("email_verified", False)`. -/
def UserSession.email_verified (u : UserSession) : Bool :=
  u.token_data.email_verified.getD false

/-- `UserSession.username`: `token_data.get("preferred_username", "")`. -/
def UserSession.username (u : UserSession) : String :=
  u.token_data.preferred_username.getD ""

/-- `UserSession.name`: `token_data.get("name", "")`. -/
def UserSession.name (u : UserSession) : String := u.token_data.name.getD ""

/-- `UserSession.roles`: `token_data.get("realm_access", {}).get("roles", [])`. -/
def UserSession.roles (u : UserSession) : List String :=
  u.token_data.realm_access_roles.getD []

/-- `UserSession.is_admin`: `"admin" in self.roles`. -/
def UserSession.is_admin (u : UserSession) : Bool := u.roles.contains "admin"

/-- Per-request environment of `AuthDependency.__call__`: the `session_id`
cookie, and the `Session` domain collaborator (Redis get, expiry check,
refresh exchange) as oracles. `refreshResult sid sd = some nd` models
`refresh_token(sid, sd)` returning `(True, nd)`; `none` models
`(False, _)`. -/
structure RequestState where
  cookie : Option String
  store : String → Option SessionRecord
  expired : SessionRecord → Bool
  refreshResult : String → SessionRecord → Option SessionRecord

/-- Observable outcome of one call of `AuthDependency.__call__` under
FastAPI: a returned `UserSession`, a returned `None` (auto_error off), a
raised `HTTPException(status, detail)`, or a raised `ValueError` escaping
the dependency unhandled. -/
inductive CallResult where
  | session (u : UserSession)
  | absent
  | httpError (status : Nat) (detail : String)
  | valueError (msg : String)
  deriving DecidableEq, Repr

/-- `AuthDependency._handle_auth_error`: raise `HTTPException` when
`auto_error` is set, otherwise return `None`. -/
def handleAuthError (auto_error : Bool) (status_code : Nat) (detail : String) :
    CallResult :=
  if auto_error then .httpError status_code detail else .absent

/-- `AuthDependency.__call__`: cookie → Redis get → expiry check → refresh →
`UserSession` construction (token verification) → admin check. -/
def authCall (auto_error require_admin : Bool) (st : RequestState) : CallResult :=
  match st.cookie with
  | none => handleAuthError auto_error 401 "Not authenticated"
  | some session_id =>
    match st.store session_id with
    | none => handleAuthError auto_error 401 "Not authenticated"
    | some session_data =>
      match (if st.expired session_data then st.refreshResult session_id session_data
             else some session_data) with
      | none => handleAuthError auto_error 401 "Session expired"
      | some sd =>
        match mkUserSession sd.access_token sd with
        | .error m => .valueError m
        | .ok u =>
          if require_admin && !u.is_admin then
            handleAuthError auto_error 403 "Admin privileges required"
          else .session u

/-- The session record the pipeline hands to `UserSession` once the cookie,
store and refresh stages have run: `none` exactly in the three
unauthenticated cases (no cookie, no record, expired and refresh failed). -/
def effectiveRecord (st : RequestState) : Option SessionRecord :=
  match st.cookie with
  | none => none
  | some session_id =>
    match st.store session_id with
    | none => none
    | some session_data =>
      if st.expired session_data then st.refreshResult session_id session_data
      else some session_data

/-- HTTP status of a raised `HTTPException`, if the call raised one. -/
def CallResult.statusOf : CallResult → Option Nat
  | .httpError s _ => some s
  | _ => none

/-- When the cookie, store or refresh stage fails, `__call__` routes through
`_handle_auth_error` with status 401 (detail depending on the stage). -/
theorem authCall_of_effective_none (auto_error require_admin : Bool)
    (st : RequestState) (h : effectiveRecord st = none) :
    ∃ d, authCall auto_error require_admin st = handleAuthError auto_error 401 d := by
  rcases hc : st.cookie with _ | sid
  · exact ⟨"Not authenticated", by simp [authCall, hc]⟩
  · rcases hs : st.store sid with _ | sd1
    · exact ⟨"Not authenticated", by simp [authCall, hc, hs]⟩
    · rcases hr : (if st.expired sd1 then st.refreshResult sid sd1 else some sd1)
        with _ | sd2
      · exact ⟨"Session expired", by simp [authCall, hc, hs, hr]⟩
      · exact absurd h (by simp [effectiveRecord, hc, hs, hr])

/-- When all three early stages succeed with record `sd`, `__call__` builds
`UserSession` from `sd` and then applies the admin gate. -/
theorem authCall_of_effective_some (auto_error require_admin : Bool)
    (st : RequestState) (sd : SessionRecord) (h : effectiveRecord st = some sd) :
    authCall auto_error require_admin st =
      match mkUserSession sd.access_token sd with
      | .error m => .valueError m
      | .ok u =>
        if require_admin && !u.is_admin then
          handleAuthError auto_error 403 "Admin privileges required"
        else .session u := by
  rcases hc : st.cookie with _ | sid
  · exact absurd h (by simp [effectiveRecord, hc])
  · rcases hs : st.store sid with _ | sd1
    · exact absurd h (by simp [effectiveRecord, hc, hs])
    · rcases hr : (if st.expired sd1 then st.refreshResult sid sd1 else some sd1)
        with _ | sd2
      · exact absurd h (by simp [effectiveRecord, hc, hs, hr])
      · have hsd : sd2 = sd := by
          have := h
          simp [effectiveRecord, hc, hs, hr] at this
          exact this
        subst hsd
        simp [authCall, hc, hs, hr]

/-- `effectiveRecord` is `none` exactly in the three unauthenticated cases:
no cookie, no stored record, or expired record whose refresh failed. -/
theorem effectiveRecord_eq_none_iff (st : RequestState) :
    effectiveRecord st = none ↔
      st.cookie = none ∨
      (∃ sid, st.cookie = some sid ∧
        (st.store sid = none ∨
         ∃ sd, st.store sid = some sd ∧ st.expired sd = true ∧
           st.refreshResult sid sd = none)) := by
  rcases hc : st.cookie with _ | sid
  · simp [effectiveRecord, hc]
  · rcases hs : st.store sid with _ | sd1
    · simp [effectiveRecord, hc, hs]
    · rcases he : st.expired sd1
      · simp [effectiveRecord, hc, hs, he]
      · rcases hr : st.refreshResult sid sd1 with _ | sd2
        · simp [effectiveRecord, hc, hs, he, hr]
        · simp [effectiveRecord, hc, hs, he, hr]

/-- Projection of a pad row needed by `PadAccess`: id, owner and the users it
is shared with. -/
structure Pad where
  pad_id : Nat
  owner_id : Nat
  shared_with : List Nat
  deriving DecidableEq, Repr

/-- Modelled from the spec: `Pad.can_access` lives in `domain/pad.py`, which
is not part of the provided sources; per the spec an identity may access a
pad exactly when its id is the owner id or a member of `shared_with`. -/
def Pad.can_access (p : Pad) (user_id : Nat) : Bool :=
  user_id == p.owner_id || p.shared_with.contains user_id

/-- Outcome of `PadAccess.__call__`: the `(pad, user)` pair on success or a
raised `HTTPException`. -/
inductive PadResult where
  | ok (pad : Pad) (user : UserSession)
  | httpError (status : Nat) (detail : String)
  deriving DecidableEq, Repr

/-- `PadAccess.__call__`: `Pad.get_by_id` (the database, an oracle `lookup`),
404 when absent, 403 when `can_access` fails, 403 when `require_owner` is set
and the caller is not the owner, else the pad and user. -/
def padAccessCall (require_owner : Bool) (lookup : Nat → Option Pad)
    (pad_id : Nat) (user : UserSession) : PadResult :=
  match lookup pad_id with
  | none => .httpError 404 "Pad not found"
  | some pad =>
    if !pad.can_access user.id then
      .httpError 403 "Not authorized to access this pad"
    else if require_owner && pad.owner_id != user.id then
      .httpError 403 "Only the pad owner can perform this operation"
    else .ok pad user

/-- `user` block of the `/auth/status` success body. -/
structure UserInfoBody where
  id : Nat
  username : String
  email : String
  name : String
  deriving DecidableEq, Repr

/-- JSON body returned by `GET /auth/status`. -/
structure StatusBody where
  authenticated : Bool
  user : Option UserInfoBody
  expires_in : Option Int
  deriving DecidableEq, Repr

/-- Observable outcome of an endpoint under FastAPI: a JSON response with a
status code, a raised `HTTPException`, or an unhandled exception escaping the
handler or one of its dependencies (which FastAPI surfaces as an internal
server error, not a JSON response of the route). -/
inductive EndpointResult (α : Type) where
  | ok (status : Nat) (body : α)
  | httpError (status : Nat) (detail : String)
  | serverError (msg : String)
  deriving DecidableEq, Repr

/-- `GET /auth/status` (`auth_status`): depends on `optional_auth`
(`AuthDependency(auto_error=False)`); with no `UserSession` it answers
`{authenticated: false}`, otherwise `{authenticated: true, user, expires_in}`
with `expires_in = token_data["exp"] - time.time()`. An exception raised by
the dependency itself (before the handler body runs) escapes. -/
def authStatus (st : RequestState) (now : Int) : EndpointResult StatusBody :=
  match authCall false false st with
  | .valueError m => .serverError m
  | .httpError s d => .httpError s d
  | .absent => .ok 200 { authenticated := false, user := none, expires_in := none }
  | .session u =>
    .ok 200
      { authenticated := true
        user := some { id := u.id, username := u.username,
                       email := u.email, name := u.name }
        expires_in := some ((u.token_data.exp : Int) - now) }

/-- JSON body returned by `POST /auth/refresh` on success. -/
structure RefreshBody where
  expires_in : Nat
  authenticated : Bool
  deriving DecidableEq, Repr

/-- `POST /auth/refresh` (`refresh_session`): 401 without a cookie, 401
without a stored record, 401 when the refresh exchange fails, else 200 with
the new record's `expires_in`. -/
def refreshSession (st : RequestState) : EndpointResult RefreshBody :=
  match st.cookie with
  | none => .httpError 401 "No session found"
  | some session_id =>
    match st.store session_id with
    | none => .httpError 401 "Invalid session"
    | some session_data =>
      match st.refreshResult session_id session_data with
      | none => .httpError 401 "Failed to refresh session"
      | some new_token_data =>
        .ok 200 { expires_in := new_token_data.expires_in, authenticated := true }

/-- Cookie-clearing attributes passed to `response.delete_cookie`. -/
structure CookieClear where
  path : String
  secure : Bool
  httponly : Bool
  samesite : String
  deriving DecidableEq, Repr

/-- Response of `GET /auth/logout`: either a plain redirect (no cookie change)
or the success JSON carrying the provider logout URL together with the
cookie deletion it performs. -/
inductive LogoutResponse where
  | redirect (target : String)
  | jsonOk (logout_url : String) (cleared : CookieClear)
  deriving DecidableEq, Repr

/-- Full observable outcome of `GET /auth/logout`: the response plus which
session key (if any) was deleted from the store. -/
structure LogoutOutcome where
  response : LogoutResponse
  deleted : Option String
  deriving DecidableEq, Repr

/-- `GET /auth/logout` (`logout`): without a cookie, or with a cookie whose
record is absent, it redirects to `/` touching nothing; otherwise it deletes
the record, builds the end-session URL with `id_token_hint` and
`post_logout_redirect_uri`, returns it as JSON and clears the cookie with
`path="/"`, `secure=True`, `httponly=True`, `samesite="lax"`. -/
def logoutCall (st : RequestState) (end_session_endpoint frontend_url : String) :
    LogoutOutcome :=
  match st.cookie with
  | none => { response := .redirect "/", deleted := none }
  | some session_id =>
    match st.store session_id with
    | none => { response := .redirect "/", deleted := none }
    | some session_data =>
      { response := .jsonOk
          (end_session_endpoint ++ "?id_token_hint=" ++ session_data.id_token ++
            "&post_logout_redirect_uri=" ++ frontend_url)
          { path := "/", secure := true, httponly := true, samesite := "lax" }
        deleted := some session_id }

/-- Outcome of the `run_migrations_with_lock` call as the `lifespan` hook
observes it: a `True`/`False` return value or a raised exception. -/
inductive MigrationOutcome where
  | success
  | failure
  | exceptionRaised (msg : String)
  deriving DecidableEq, Repr

/-- Outcome of the `redis_client.ping()` connectivity check. -/
inductive PingOutcome where
  | ok
  | failed (msg : String)
  deriving DecidableEq, Repr

/-- `run_migrations_with_lock` as seen from `lifespan`: returns a `Bool` or
raises (modelled by `Except`). Its internals (lock polling) live in
`database/database.py`, outside the provided sources; only its observable
outcome matters to the startup claim. -/
def runMigrationsWithLock : MigrationOutcome → Except String Bool
  | .success => .ok true
  | .failure => .ok false
  | .exceptionRaised m => .error m

/-- State reached by the startup phase of `lifespan` at its `yield`: whether
the process begins serving requests, and the log lines printed on the way. -/
structure StartupResult where
  serving : Bool
  logs : List String
  deriving DecidableEq, Repr

/-- Startup phase of `lifespan` in `main.py`: the migration step and the
Redis ping are each wrapped in `try/except` that only prints a warning;
`load_templates` catches all its errors internally; then the hook yields,
i.e. the application starts serving. -/
def lifespanStartup (mig : MigrationOutcome) (ping : PingOutcome) : StartupResult :=
  let migLog :=
    match runMigrationsWithLock mig with
    | .ok true => "Database migrations completed successfully or already done"
    | .ok false => "Warning: Migrations failed or timed out - proceeding with caution"
    | .error m => "Warning: Failed to run migrations: " ++ m
  let pingLog :=
    match ping with
    | .ok => "Redis connection established successfully"
    | .failed m => "Warning: Redis connection failed: " ++ m
  { serving := true
    logs := ["Database connection established successfully", migLog, pingLog,
             "Templates loaded successfully"] }

/-- Concrete claims of a user holding the admin role. -/
def adminClaims : Claims :=
  { sub := 7, exp := 2000,
    email := some "alice@example.com", email_verified := some true,
    preferred_username := some "alice", name := some "Alice",
    realm_access_roles := some ["admin", "user"] }

/-- Concrete claims of a user with every optional claim absent. -/
def plainClaims : Claims :=
  { sub := 8, exp := 1500, email := none, email_verified := none,
    preferred_username := none, name := none, realm_access_roles := none }

/-- Session record whose access token verifies to `adminClaims`. -/
def recAdmin : SessionRecord :=
  { access_token := .valid adminClaims, refresh_token := "r1",
    id_token := "idt1", expires_in := 3600 }

/-- Session record whose access token verifies to `plainClaims`. -/
def recPlain : SessionRecord :=
  { access_token := .valid plainClaims, refresh_token := "r2",
    id_token := "idt2", expires_in := 1800 }

/-- Session record whose access token fails signature verification. -/
def recBadTok : SessionRecord :=
  { access_token := .invalid "Signature verification failed",
    refresh_token := "r3", id_token := "idt3", expires_in := 3600 }

/-- A store holding exactly one record under key "sid". -/
def storeOf (r : SessionRecord) : String → Option SessionRecord :=
  fun s => if s = "sid" then some r else none

/-- Request carrying the "sid" cookie over a store holding `r`, with the
record not expired and refresh unavailable. -/
def stOf (r : SessionRecord) : RequestState :=
  { cookie := some "sid", store := storeOf r,
    expired := fun _ => false, refreshResult := fun _ _ => none }

/-- Request with a live session whose access token is invalid. -/
def stBadTok : RequestState := stOf recBadTok

/-- Request without a `session_id` cookie. -/
def stNoCookie : RequestState :=
  { cookie := none, store := fun _ => none,
    expired := fun _ => false, refreshResult := fun _ _ => none }

/-- Request with a cookie whose session record is absent from the store. -/
def stNoRecord : RequestState :=
  { cookie := some "sid", store := fun _ => none,
    expired := fun _ => false, refreshResult := fun _ _ => none }

/-- Request whose stored record is expired and whose refresh exchange
succeeds, yielding `recAdmin`. -/
def stExpired : RequestState :=
  { cookie := some "sid", store := storeOf recPlain,
    expired := fun _ => true, refreshResult := fun _ _ => some recAdmin }

/-- Claim C1, counterexample: a request with a cookie, a stored, unexpired
session record, whose access token fails verification. `require_auth` neither
raises a 401 nor returns a `UserSession`: the constructor's `ValueError`
escapes, so "in every other case it returns the Identity" is false. -/
theorem C1_counterexample :
    stBadTok.cookie = some "sid" ∧
    stBadTok.store "sid" = some recBadTok ∧
    stBadTok.expired recBadTok = false ∧
    (authCall true false stBadTok).statusOf ≠ some 401 ∧
    authCall true false stBadTok =
      CallResult.valueError "Invalid authentication token: Signature verification failed" := by
  decide

/-- Claim C1 (amended): `require_auth` raises HTTP 401 exactly when the
cookie is absent, the session record is absent, or the record is expired and
the refresh attempt fails; in every other case, IF the (possibly refreshed)
record's access token verifies, it returns the `UserSession` built from that
token, and if verification fails it raises `ValueError` instead. -/
theorem C1_required_tier (st : RequestState) :
    ((authCall true false st).statusOf = some 401 ↔
      st.cookie = none ∨
      (∃ sid, st.cookie = some sid ∧
        (st.store sid = none ∨
         ∃ sd, st.store sid = some sd ∧ st.expired sd = true ∧
           st.refreshResult sid sd = none))) ∧
    (∀ sd c, effectiveRecord st = some sd → verify sd.access_token = Except.ok c →
      authCall true false st =
        CallResult.session { access_token := sd.access_token, token_data := c }) ∧
    (∀ sd e, effectiveRecord st = some sd → verify sd.access_token = Except.error e →
      authCall true false st =
        CallResult.valueError ("Invalid authentication token: " ++ e)) := by
  refine ⟨?_, ?_, ?_⟩
  · rw [← effectiveRecord_eq_none_iff]
    constructor
    · intro h401
      rcases hre : effectiveRecord st with _ | sd
      · rfl
      · exfalso
        have heq := authCall_of_effective_some true false st sd hre
        rcases hv : verify sd.access_token with e | c
        · simp [mkUserSession, hv] at heq
          rw [heq] at h401
          simp [CallResult.statusOf] at h401
        · simp [mkUserSession, hv] at heq
          rw [heq] at h401
          simp [CallResult.statusOf] at h401
    · intro hnone
      obtain ⟨d, hd⟩ := authCall_of_effective_none true false st hnone
      rw [hd]
      rfl
  · intro sd c hre hv
    have heq := authCall_of_effective_some true false st sd hre
    simpa [mkUserSession, hv] using heq
  · intro sd e hre hv
    have heq := authCall_of_effective_some true false st sd hre
    simpa [mkUserSession, hv] using heq

/-- Witness for C1: on a live, unexpired session with a valid admin token,
`require_auth` returns the `UserSession` carrying the verified claims. -/
theorem C1_required_tier_witness :
    authCall true false (stOf recAdmin) =
      CallResult.session
        { access_token := AccessToken.valid adminClaims, token_data := adminClaims } :=
  (C1_required_tier (stOf recAdmin)).2.1 recAdmin adminClaims (by decide) rfl

/-- Claim C2, counterexample: `optional_auth` does raise. On a session whose
access token fails verification the `UserSession` constructor's `ValueError`
escapes even with `auto_error=False`, so the result is neither an identity
nor `None`. -/
theorem C2_counterexample :
    authCall false false stBadTok ≠ CallResult.absent ∧
    (authCall false false stBadTok).statusOf = none ∧
    authCall false false stBadTok =
      CallResult.valueError "Invalid authentication token: Signature verification failed" := by
  decide

/-- Claim C2 (amended): `optional_auth` never raises an `HTTPException`, and
for an absent cookie, an absent record or a failed refresh it returns `None`;
when the effective record's token verifies it returns the identity; but when
the token fails verification it raises `ValueError` rather than returning. -/
theorem C2_optional_tier (st : RequestState) :
    ((authCall false false st).statusOf = none) ∧
    (effectiveRecord st = none → authCall false false st = CallResult.absent) ∧
    (∀ sd c, effectiveRecord st = some sd → verify sd.access_token = Except.ok c →
      authCall false false st =
        CallResult.session { access_token := sd.access_token, token_data := c }) ∧
    (∀ sd e, effectiveRecord st = some sd → verify sd.access_token = Except.error e →
      authCall false false st =
        CallResult.valueError ("Invalid authentication token: " ++ e)) := by
  refine ⟨?_, ?_, ?_, ?_⟩
  · rcases hre : effectiveRecord st with _ | sd
    · obtain ⟨d, hd⟩ := authCall_of_effective_none false false st hre
      rw [hd]
      rfl
    · have heq := authCall_of_effective_some false false st sd hre
      rcases hv : verify sd.access_token with e | c
      · simp [mkUserSession, hv] at heq
        rw [heq]
        rfl
      · simp [mkUserSession, hv] at heq
        rw [heq]
        rfl
  · intro hnone
    obtain ⟨d, hd⟩ := authCall_of_effective_none false false st hnone
    rw [hd]
    rfl
  · intro sd c hre hv
    have heq := authCall_of_effective_some false false st sd hre
    simpa [mkUserSession, hv] using heq
  · intro sd e hre hv
    have heq := authCall_of_effective_some false false st sd hre
    simpa [mkUserSession, hv] using heq

/-- Witness for C2: with no cookie, `optional_auth` returns `None`. -/
theorem C2_optional_tier_witness :
    authCall false false stNoCookie = CallResult.absent :=
  (C2_optional_tier stNoCookie).2.1 (by decide)

/-- Claim C3: pad authorization — absent pad gives 404 whatever the identity;
a pad the identity can neither own nor share gives 403; `require_owner` with
a non-owner gives 403 even when shared; otherwise the pad and user are
returned. -/
theorem C3_pad_access (require_owner : Bool) (lookup : Nat → Option Pad)
    (pad_id : Nat) (user : UserSession) :
    (lookup pad_id = none →
      padAccessCall require_owner lookup pad_id user =
        PadResult.httpError 404 "Pad not found") ∧
    (∀ pad, lookup pad_id = some pad → pad.can_access user.id = false →
      padAccessCall require_owner lookup pad_id user =
        PadResult.httpError 403 "Not authorized to access this pad") ∧
    (∀ pad, lookup pad_id = some pad → require_owner = true → pad.owner_id ≠ user.id →
      ∃ d, padAccessCall require_owner lookup pad_id user =
        PadResult.httpError 403 d) ∧
    (∀ pad, lookup pad_id = some pad → pad.can_access user.id = true →
      (require_owner = true → pad.owner_id = user.id) →
      padAccessCall require_owner lookup pad_id user = PadResult.ok pad user) := by
  refine ⟨?_, ?_, ?_, ?_⟩
  · intro h
    simp [padAccessCall, h]
  · intro pad hl hca
    simp [padAccessCall, hl, hca]
  · intro pad hl hro hne
    rcases hca : pad.can_access user.id
    · exact ⟨"Not authorized to access this pad", by simp [padAccessCall, hl, hca]⟩
    · refine ⟨"Only the pad owner can perform this operation", ?_⟩
      simp [padAccessCall, hl, hca, hro, bne_iff_ne, hne]
  · intro pad hl hca how
    rcases hro : require_owner
    · simp [padAccessCall, hl, hca, hro]
    · simp [padAccessCall, hl, hca, hro, how hro]

/-- Witness for C3: the owner passes the owner-only gate and receives the
pad. -/
theorem C3_pad_access_witness :
    padAccessCall true (fun i => if i = 1 then some ⟨1, 7, [8]⟩ else none) 1
        { access_token := AccessToken.valid adminClaims, token_data := adminClaims } =
      PadResult.ok ⟨1, 7, [8]⟩
        { access_token := AccessToken.valid adminClaims, token_data := adminClaims } :=
  (C3_pad_access true (fun i => if i = 1 then some ⟨1, 7, [8]⟩ else none) 1
    { access_token := AccessToken.valid adminClaims, token_data := adminClaims }).2.2.2
    ⟨1, 7, [8]⟩ (by decide) (by decide) (fun _ => by decide)

/-- HTTP status the client observes, when the endpoint produced a response
itself (an unhandled exception carries none of the route's statuses). -/
def EndpointResult.httpStatus {α : Type} : EndpointResult α → Option Nat
  | .ok s _ => some s
  | .httpError s _ => some s
  | .serverError _ => none

/-- Claim C4, counterexample: a session whose access token fails verification
makes `require_auth` raise `ValueError`, which is not an `HTTPException` and
carries no 401 status — the failure is an unhandled exception, not a 401. -/
theorem C4_counterexample :
    (authCall true false stBadTok).statusOf ≠ some 401 ∧
    ((authCall true false stBadTok).statusOf).isNone = true ∧
    authCall true false stBadTok =
      CallResult.valueError "Invalid authentication token: Signature verification failed" := by
  decide

/-- Claim C4 (amended): a failing signature/audience verification makes the
request fail with the `ValueError` invalid-token error — an unhandled
exception, not an HTTP 401 — and this is distinct from the recoverable
expired-token case, where a successful refresh yields the identity of the new
token instead of any failure. -/
theorem C4_invalid_token (st : RequestState) :
    (∀ sd e, effectiveRecord st = some sd → verify sd.access_token = Except.error e →
      authCall true false st =
        CallResult.valueError ("Invalid authentication token: " ++ e) ∧
      (authCall true false st).statusOf = none) ∧
    (∀ sid sd nd c, st.cookie = some sid → st.store sid = some sd →
      st.expired sd = true → st.refreshResult sid sd = some nd →
      verify nd.access_token = Except.ok c →
      authCall true false st =
        CallResult.session { access_token := nd.access_token, token_data := c }) := by
  constructor
  · intro sd e hre hv
    have heq := authCall_of_effective_some true false st sd hre
    simp [mkUserSession, hv] at heq
    exact ⟨heq, by rw [heq]; rfl⟩
  · intro sid sd nd c hc hs he hr hv
    have hre : effectiveRecord st = some nd := by
      simp [effectiveRecord, hc, hs, he, hr]
    have heq := authCall_of_effective_some true false st nd hre
    simpa [mkUserSession, hv] using heq

/-- Witness for C4: an expired session whose refresh succeeds resolves to the
refreshed token's identity rather than failing. -/
theorem C4_invalid_token_witness :
    authCall true false stExpired =
      CallResult.session
        { access_token := AccessToken.valid adminClaims, token_data := adminClaims } :=
  (C4_invalid_token stExpired).2 "sid" recPlain recAdmin adminClaims
    (by decide) (by decide) (by decide) (by decide) rfl

/-- Claim C5: after the Required pipeline resolves an identity,
`require_admin` raises 403 exactly when that identity is not an admin, and
`is_admin` holds exactly when "admin" is among the roles claim of the
verified token. -/
theorem C5_admin_tier (st : RequestState) (sd : SessionRecord) (c : Claims)
    (hre : effectiveRecord st = some sd) (hv : verify sd.access_token = Except.ok c) :
    (authCall true true st = CallResult.httpError 403 "Admin privileges required" ↔
      UserSession.is_admin { access_token := sd.access_token, token_data := c } = false) ∧
    (UserSession.is_admin { access_token := sd.access_token, token_data := c } = true →
      authCall true true st =
        CallResult.session { access_token := sd.access_token, token_data := c }) ∧
    UserSession.is_admin { access_token := sd.access_token, token_data := c } =
      (c.realm_access_roles.getD []).contains "admin" := by
  have heq := authCall_of_effective_some true true st sd hre
  simp [mkUserSession, hv] at heq
  refine ⟨?_, ?_, rfl⟩
  · rcases ha : UserSession.is_admin { access_token := sd.access_token, token_data := c }
    · simp [heq, handleAuthError, ha]
    · simp [heq, handleAuthError, ha]
  · intro ha
    simp [heq, handleAuthError, ha]

/-- Witness for C5: a non-admin identity is rejected with 403 by
`require_admin`. -/
theorem C5_admin_tier_witness :
    authCall true true (stOf recPlain) =
      CallResult.httpError 403 "Admin privileges required" :=
  (C5_admin_tier (stOf recPlain) recPlain plainClaims (by decide) rfl).1.mpr (by decide)

/-- Claim C6, counterexample: `GET /status` does fail. When the session's
access token fails verification, `optional_auth` raises `ValueError` before
the handler body runs, so the request ends in an unhandled exception instead
of a 200 JSON body. -/
theorem C6_counterexample :
    (authStatus stBadTok 0).httpStatus ≠ some 200 ∧
    authStatus stBadTok 0 =
      EndpointResult.serverError
        "Invalid authentication token: Signature verification failed" := by
  decide

/-- Claim C6 (amended): `GET /status` answers 200 with `authenticated: false`
whenever no identity resolves through the unauthenticated paths (absent
cookie, absent record, failed refresh), and 200 with `authenticated: true`,
the user fields and `expires_in` when an identity is resolved; but when the
session's access token fails verification the dependency's `ValueError`
escapes and the request fails instead of returning 200. -/
theorem C6_status (st : RequestState) (now : Int) :
    (effectiveRecord st = none →
      authStatus st now =
        EndpointResult.ok 200 { authenticated := false, user := none, expires_in := none }) ∧
    (∀ sd c, effectiveRecord st = some sd → verify sd.access_token = Except.ok c →
      authStatus st now =
        EndpointResult.ok 200
          { authenticated := true
            user := some { id := c.sub, username := c.preferred_username.getD ""
                           email := c.email.getD "", name := c.name.getD "" }
            expires_in := some ((c.exp : Int) - now) }) ∧
    (∀ sd e, effectiveRecord st = some sd → verify sd.access_token = Except.error e →
      authStatus st now =
        EndpointResult.serverError ("Invalid authentication token: " ++ e)) := by
  refine ⟨?_, ?_, ?_⟩
  · intro hnone
    have habs := (C2_optional_tier st).2.1 hnone
    simp [authStatus, habs]
  · intro sd c hre hv
    have hses := (C2_optional_tier st).2.2.1 sd c hre hv
    simp [authStatus, hses, UserSession.id, UserSession.username, UserSession.email,
      UserSession.name]
  · intro sd e hre hv
    have hval := (C2_optional_tier st).2.2.2 sd e hre hv
    simp [authStatus, hval]

/-- Witness for C6: without a cookie, `/status` answers 200 with
`authenticated: false`. -/
theorem C6_status_witness :
    authStatus stNoCookie 0 =
      EndpointResult.ok 200 { authenticated := false, user := none, expires_in := none } :=
  (C6_status stNoCookie 0).1 (by decide)

/-- Claim C7: `POST /refresh` answers 401 without a cookie, 401 without a
stored record, 401 when the refresh exchange fails, 200 with the new
`expires_in` on success, and no other status ever. -/
theorem C7_refresh (st : RequestState) :
    (st.cookie = none → refreshSession st = EndpointResult.httpError 401 "No session found") ∧
    (∀ sid, st.cookie = some sid → st.store sid = none →
      refreshSession st = EndpointResult.httpError 401 "Invalid session") ∧
    (∀ sid sd, st.cookie = some sid → st.store sid = some sd →
      st.refreshResult sid sd = none →
      refreshSession st = EndpointResult.httpError 401 "Failed to refresh session") ∧
    (∀ sid sd nd, st.cookie = some sid → st.store sid = some sd →
      st.refreshResult sid sd = some nd →
      refreshSession st =
        EndpointResult.ok 200 { expires_in := nd.expires_in, authenticated := true }) ∧
    ((refreshSession st).httpStatus = some 200 ∨
      (refreshSession st).httpStatus = some 401) := by
  refine ⟨?_, ?_, ?_, ?_, ?_⟩
  · intro hc
    simp [refreshSession, hc]
  · intro sid hc hs
    simp [refreshSession, hc, hs]
  · intro sid sd hc hs hr
    simp [refreshSession, hc, hs, hr]
  · intro sid sd nd hc hs hr
    simp [refreshSession, hc, hs, hr]
  · rcases hc : st.cookie with _ | sid
    · right
      simp [refreshSession, hc, EndpointResult.httpStatus]
    · rcases hs : st.store sid with _ | sd
      · right
        simp [refreshSession, hc, hs, EndpointResult.httpStatus]
      · rcases hr : st.refreshResult sid sd with _ | nd
        · right
          simp [refreshSession, hc, hs, hr, EndpointResult.httpStatus]
        · left
          simp [refreshSession, hc, hs, hr, EndpointResult.httpStatus]

/-- Witness for C7: a successful refresh exchange answers 200 with the new
record's `expires_in`. -/
theorem C7_refresh_witness :
    refreshSession stExpired =
      EndpointResult.ok 200 { expires_in := 3600, authenticated := true } :=
  (C7_refresh stExpired).2.2.2.1 "sid" recPlain recAdmin (by decide) (by decide) (by decide)

/-- Claim C8, counterexample: a request to `/logout` carrying a cookie whose
session record is absent is answered with a bare redirect to `/`: nothing is
deleted, the cookie is NOT cleared and no end-session URL is returned — so
the per-request universal claim is false. -/
theorem C8_counterexample :
    stNoRecord.cookie = some "sid" ∧
    logoutCall stNoRecord "https://idp/end-session" "https://front" =
      { response := LogoutResponse.redirect "/", deleted := none } := by
  decide

/-- Claim C8 (amended): when the cookie is present AND its session record
exists, `/logout` deletes the record, clears the cookie with `path=/`,
`secure`, `httponly`, `samesite=lax` and returns the provider's end-session
URL; when the cookie or the record is absent it redirects to `/` without
clearing anything. -/
theorem C8_logout (st : RequestState) (ep fe : String) :
    (∀ sid sd, st.cookie = some sid → st.store sid = some sd →
      logoutCall st ep fe =
        { response := LogoutResponse.jsonOk
            (ep ++ "?id_token_hint=" ++ sd.id_token ++
              "&post_logout_redirect_uri=" ++ fe)
            { path := "/", secure := true, httponly := true, samesite := "lax" }
          deleted := some sid }) ∧
    (st.cookie = none →
      logoutCall st ep fe = { response := LogoutResponse.redirect "/", deleted := none }) ∧
    (∀ sid, st.cookie = some sid → st.store sid = none →
      logoutCall st ep fe = { response := LogoutResponse.redirect "/", deleted := none }) := by
  refine ⟨?_, ?_, ?_⟩
  · intro sid sd hc hs
    simp [logoutCall, hc, hs]
  · intro hc
    simp [logoutCall, hc]
  · intro sid hc hs
    simp [logoutCall, hc, hs]

/-- Witness for C8: logging out of a live session deletes it, clears the
cookie with the required attributes and returns the end-session URL. -/
theorem C8_logout_witness :
    logoutCall (stOf recPlain) "https://idp/end-session" "https://front" =
      { response := LogoutResponse.jsonOk
          "https://idp/end-session?id_token_hint=idt2&post_logout_redirect_uri=https://front"
          { path := "/", secure := true, httponly := true, samesite := "lax" }
        deleted := some "sid" } :=
  (C8_logout (stOf recPlain) "https://idp/end-session" "https://front").1 "sid" recPlain
    (by decide) (by decide)

/-- Claim C9: whatever the migration-with-lock step does — returns success,
returns failure, or raises — startup continues to the `yield` and the
application serves requests; a raised migration error is only reported as a
warning log line. -/
theorem C9_startup (mig : MigrationOutcome) (ping : PingOutcome) (m : String) :
    (lifespanStartup mig ping).serving = true ∧
    ("Warning: Failed to run migrations: " ++ m) ∈
      (lifespanStartup (MigrationOutcome.exceptionRaised m) ping).logs := by
  constructor
  · cases mig <;> cases ping <;> rfl
  · cases ping <;> simp [lifespanStartup, runMigrationsWithLock]

/-- Claim C10: the `UserSession` constructor ignores the raw record passed as
`token_data` (overwriting the field with the verified decode result), and
every identity field is derived from the verified claims with the documented
defaults for absent optional claims. -/
theorem C10_user_session (tok : AccessToken) (r1 r2 : SessionRecord) (c : Claims) :
    mkUserSession tok r1 = mkUserSession tok r2 ∧
    (verify tok = Except.ok c →
      mkUserSession tok r1 = Except.ok { access_token := tok, token_data := c } ∧
      UserSession.id { access_token := tok, token_data := c } = c.sub ∧
      UserSession.email { access_token := tok, token_data := c } = c.email.getD "" ∧
      UserSession.email_verified { access_token := tok, token_data := c } =
        c.email_verified.getD false ∧
      UserSession.username { access_token := tok, token_data := c } =
        c.preferred_username.getD "" ∧
      UserSession.name { access_token := tok, token_data := c } = c.name.getD "" ∧
      UserSession.roles { access_token := tok, token_data := c } =
        c.realm_access_roles.getD [] ∧
      UserSession.is_admin { access_token := tok, token_data := c } =
        (c.realm_access_roles.getD []).contains "admin") := by
  constructor
  · rfl
  · intro hv
    refine ⟨?_, rfl, rfl, rfl, rfl, rfl, rfl, rfl⟩
    simp [mkUserSession, hv]

/-- Witness for C10: a token verifying to `adminClaims` yields the
`UserSession` holding exactly those claims, whatever raw record was passed. -/
theorem C10_user_session_witness :
    mkUserSession (AccessToken.valid adminClaims) recBadTok =
      Except.ok { access_token := AccessToken.valid adminClaims, token_data := adminClaims } :=
  ((C10_user_session (AccessToken.valid adminClaims) recBadTok recPlain adminClaims).2 rfl).1

end PadWs
